import Mathlib

/-
Verification development for the generic table-CRUD data-access layer of this
repository: the column-metadata normalizer and UI primary-key choice from the
Database page of the web frontend, and the HTTP handlers of
controller/database.go (paginated read, single update/delete, bulk
update/delete), shallowly embedded as executable Lean definitions.
-/

set_option maxRecDepth 4096

namespace DbAdmin

/-! ### JavaScript value model (frontend normalizer) -/

/-- Model of the JavaScript values that can appear in a raw column-description
object scanned from the database catalog: absent fields read as `undefined`. -/
inductive JsValue where
  | undef
  | jnull
  | jstr (s : String)
  | jnum (n : Int)
  | jbool (b : Bool)
deriving DecidableEq

/-- A raw backend column description: a JS object, modelled as an association
list from field name to value. A key not present in the list reads `undef`. -/
abbrev RawCol := List (String × JsValue)

/-- Property read `c.k`: the value of field `k`, `undefined` when absent. -/
def jsGet (c : RawCol) (k : String) : JsValue :=
  match c.find? (fun kv => kv.1 == k) with
  | some kv => kv.2
  | none => JsValue.undef

/-- JavaScript truthiness of a modelled value. -/
def truthy : JsValue → Bool
  | JsValue.undef => false
  | JsValue.jnull => false
  | JsValue.jstr s => !(s == "")
  | JsValue.jnum n => !(n == 0)
  | JsValue.jbool b => b

/-- JavaScript `a || b`: `a` when truthy, else `b`. -/
def jsOr (a b : JsValue) : JsValue :=
  if truthy a then a else b

/-- JavaScript `a ?? b`: `b` only when `a` is `null` or `undefined`. -/
def jsNullish (a b : JsValue) : JsValue :=
  match a with
  | JsValue.undef => b
  | JsValue.jnull => b
  | _ => a

/-- JavaScript strict equality `v === "s"` against a string literal. -/
def strictEqS (v : JsValue) (s : String) : Bool :=
  match v with
  | JsValue.jstr t => t == s
  | _ => false

/-- JavaScript strict equality `v === n` against a number literal. -/
def strictEqN (v : JsValue) (n : Int) : Bool :=
  match v with
  | JsValue.jnum m => m == n
  | _ => false

/-- Canonical column record produced by the frontend normalizer
(`getTableInfo` in the Database page): name, type, primary-key flag,
nullability, default value and extra attributes. -/
structure ColumnMeta where
  name : JsValue
  type : JsValue
  pk : Bool
  nullable : Bool
  default : JsValue
  extra : JsValue
deriving DecidableEq

/-- The normalizer from `getTableInfo` in the Database page: one raw backend
column description to one `ColumnMeta`.  The first branch is taken when the
description carries a truthy `name` field (SQLite `PRAGMA table_info` shape);
otherwise the capitalized MySQL `DESCRIBE` field names are read. -/
def normalizeColumn (c : RawCol) : ColumnMeta :=
  if truthy (jsGet c ("name")) then
    { name := jsGet c ("name")
      type := jsOr (jsGet c ("type")) (jsGet c ("data_type"))
      pk := truthy (jsGet c ("pk")) || strictEqS (jsGet c ("key")) ("PRI")
      nullable := strictEqS (jsGet c ("is_nullable")) ("YES") || strictEqN (jsGet c ("notnull")) 0
      default := jsNullish (jsGet c ("column_default")) (jsGet c ("dflt_value"))
      extra := jsGet c ("extra") }
  else
    { name := jsGet c ("Field")
      type := jsGet c ("Type")
      pk := strictEqS (jsGet c ("Key")) ("PRI")
      nullable := strictEqS (jsGet c ("Null")) ("YES")
      default := jsGet c ("Default")
      extra := jsGet c ("Extra") }

/-- The UI primary-key choice (`getPrimaryKeyName` in the Database page):
first column flagged `pk`, else a column literally named `id`, else none. -/
def getPrimaryKeyName (cols : List ColumnMeta) : Option JsValue :=
  if cols.length = 0 then none
  else
    match cols.find? (fun col => col.pk) with
    | some c => some c.name
    | none =>
      match cols.find? (fun col => strictEqS col.name ("id")) with
      | some c => some c.name
      | none => none

/-- A MySQL `DESCRIBE` row for an integer primary-key column `id`. -/
def mysqlIdRow : RawCol :=
  [(("Field"), JsValue.jstr ("id")), (("Type"), JsValue.jstr ("int")),
   (("Key"), JsValue.jstr ("PRI")), (("Null"), JsValue.jstr ("NO")),
   (("Default"), JsValue.jnull), (("Extra"), JsValue.jstr (""))]

/-- A PostgreSQL `information_schema.columns` row for a nullable integer
column `id`: keyed by `column_name`/`data_type`/`is_nullable`/`column_default`
and carrying no `name` or `Field` key. -/
def pgIdRow : RawCol :=
  [(("column_name"), JsValue.jstr ("id")), (("data_type"), JsValue.jstr ("integer")),
   (("is_nullable"), JsValue.jstr ("YES")), (("column_default"), JsValue.jnull)]

/-! ### Go value and time model (controller/database.go) -/

/-- Model of Go `time.Time` at second granularity (the RFC 3339 layout used by
the handler renders no sub-second digits): the instant as Unix seconds together
with the zone offset, in seconds, of the time's location. -/
structure GoTime where
  unixSec : Int
  offsetSec : Int
deriving DecidableEq

/-- Go `t.UTC()`: same instant, location switched to UTC (offset 0). -/
def goUTC (t : GoTime) : GoTime :=
  { unixSec := t.unixSec, offsetSec := 0 }

/-- Zero-pad a natural number to two digits. -/
def pad2 (n : Nat) : String :=
  if n < 10 then "0" ++ toString n else toString n

/-- Zero-pad a natural number to four digits. -/
def pad4 (n : Nat) : String :=
  if n < 10 then "000" ++ toString n
  else if n < 100 then "00" ++ toString n
  else if n < 1000 then "0" ++ toString n
  else toString n

/-- Proleptic-Gregorian civil date (year, month, day) from a count of days
since 1970-01-01. -/
def civilFromDays (z0 : Int) : Int × Int × Int :=
  let z := z0 + 719468
  let era := Int.fdiv z 146097
  let doe := z - era * 146097
  let yoe := Int.fdiv (doe - Int.fdiv doe 1460 + Int.fdiv doe 36524 - Int.fdiv doe 146096) 365
  let y := yoe + era * 400
  let doy := doe - (365 * yoe + Int.fdiv yoe 4 - Int.fdiv yoe 100)
  let mp := Int.fdiv (5 * doy + 2) 153
  let d := doy - Int.fdiv (153 * mp + 2) 5 + 1
  let m := mp + (if mp < 10 then 3 else -9)
  (y + (if m ≤ 2 then 1 else 0), m, d)

/-- Render a year as Go does for the `2006` layout element. -/
def formatYear (y : Int) : String :=
  if y < 0 then "-" ++ pad4 y.natAbs else pad4 y.toNat

/-- Render the zone designator of the RFC 3339 layout (`Z07:00`): `Z` at
offset zero, else a signed `hh:mm` offset. -/
def formatZone (ofs : Int) : String :=
  if ofs = 0 then "Z"
  else
    let sign := if ofs < 0 then "-" else "+"
    let a := ofs.natAbs
    sign ++ pad2 (a / 3600) ++ ":" ++ pad2 ((a % 3600) / 60)

/-- Go `t.Format(time.RFC3339)`: the wall-clock date-time of `t` at its own
zone offset, in the layout `2006-01-02T15:04:05Z07:00`. -/
def formatRFC3339 (t : GoTime) : String :=
  let wall := t.unixSec + t.offsetSec
  let days := Int.fdiv wall 86400
  let sod := (Int.fmod wall 86400).toNat
  let c := civilFromDays days
  formatYear c.1 ++ "-" ++ pad2 c.2.1.toNat ++ "-" ++ pad2 c.2.2.toNat ++ "T" ++
    pad2 (sod / 3600) ++ ":" ++ pad2 ((sod % 3600) / 60) ++ ":" ++ pad2 (sod % 60) ++
    formatZone t.offsetSec

/-- Model of the Go `interface{}` values a scanned row cell can hold, as far
as the handlers distinguish them: a `time.Time`, a `*time.Time` (possibly
nil), or anything else, which passes through untouched. -/
inductive Value where
  | vNull
  | vBool (b : Bool)
  | vInt (n : Int)
  | vStr (s : String)
  | vTime (t : GoTime)
  | vTimePtr (t : Option GoTime)
deriving DecidableEq

/-- A scanned row: `map[string]interface{}`, modelled as an association list. -/
abbrev Row := List (String × Value)

/-- The per-cell timestamp normalization of `GetTableData`: a `time.Time` is
rendered as `tv.UTC().Format(time.RFC3339)`, a non-nil `*time.Time`
likewise, a nil `*time.Time` becomes JSON null, anything else is unchanged. -/
def normalizeValue : Value → Value
  | Value.vTime t => Value.vStr (formatRFC3339 (goUTC t))
  | Value.vTimePtr (some t) => Value.vStr (formatRFC3339 (goUTC t))
  | Value.vTimePtr none => Value.vNull
  | v => v

/-- Apply `normalizeValue` to every cell of a row. -/
def normalizeRow (r : Row) : Row :=
  r.map (fun kv => (kv.1, normalizeValue kv.2))

/-! ### Query-parameter parsing (strconv.Atoi, gin DefaultQuery) -/

/-- Whether a string is syntactically a base-10 integer for Go
`strconv.Atoi`: an optional sign followed by one or more ASCII digits. -/
def intSyntaxOk (s : String) : Bool :=
  let body := match s.data with
    | '-' :: rest => rest
    | '+' :: rest => rest
    | rest => rest
  !(body.length == 0) && body.all (fun c => '0' ≤ c && c ≤ '9')

/-- Numeric value of a list of ASCII digits. -/
def digitsVal (cs : List Char) : Nat :=
  cs.foldl (fun a c => a * 10 + (c.toNat - 48)) 0

/-- Signed numeric value of a syntactically valid integer string. -/
def intVal (s : String) : Int :=
  match s.data with
  | '-' :: rest => -(digitsVal rest : Int)
  | '+' :: rest => (digitsVal rest : Int)
  | rest => (digitsVal rest : Int)

/-- Largest value of Go `int` on a 64-bit platform. -/
def intMax : Int := 2 ^ 63 - 1

/-- Smallest value of Go `int` on a 64-bit platform. -/
def intMin : Int := -(2 ^ 63)

/-- Go `strconv.Atoi` on 64-bit: `(0, error)` on a syntax error, the clamped
extreme `(±2^63∓…, error)` on a range error, `(value, ok)` otherwise.  The
second component is `true` exactly when no error is returned. -/
def goAtoi (s : String) : Int × Bool :=
  if intSyntaxOk s then
    let v := intVal s
    if v < intMin then (intMin, false)
    else if v > intMax then (intMax, false)
    else (v, true)
  else (0, false)

/-- gin `c.DefaultQuery key dflt`: the query value when the key is present,
the default otherwise. -/
def defaultQuery (q : Option String) (d : String) : String :=
  q.getD d

/-! ### Database backend and HTTP handler models -/

/-- Oracle for the gorm-backed relational database: results of the count,
paginated select, conditional update and conditional delete statements the
handlers issue.  Update and delete pair a possible error message with the
affected-row count (`tx.Error`, `tx.RowsAffected`). -/
structure Backend where
  countRes : String → Except String Int
  selectRes : String → Int → Int → Except String (List Row)
  updateRes : String → String → List Value → Row → Option String × Int
  deleteRes : String → String → List Value → Option String × Int

/-- Trace entry: one statement issued to the database backend. -/
inductive DbCall where
  | count (table : String)
  | select (table : String) (off lim : Int)
  | update (table : String) (whereClause : String) (args : List Value) (upd : Row)
  | delete (table : String) (whereClause : String) (args : List Value)
deriving DecidableEq

/-- Per-item outcome record of the bulk handlers (`results` array element):
`ok`, `error`, the echoed condition `id` when present, and (bulk delete only)
the echoed full condition when no `id` is present. -/
structure ItemResult where
  ok : Bool
  error : String
  id : Option Value
  condition : Option Row
deriving DecidableEq

/-- JSON body a handler responds with, together with its HTTP status: fields
absent from the particular `gin.H` literal are `none`. -/
structure ApiResp where
  status : Nat
  success : Bool
  message : String
  data : Option (List Row)
  total : Option Int
  rows : Option Int
  results : Option (List ItemResult)
deriving DecidableEq

/-- An error response carrying only `success:false` and a message. -/
def errResp (st : Nat) (msg : String) : ApiResp :=
  { status := st, success := false, message := msg,
    data := none, total := none, rows := none, results := none }

/-- The WHERE-clause builder the mutation handlers share: fold the condition
entries into a conjunctive parameterized predicate and an argument list. -/
def buildWhere (cond : Row) : String × List Value :=
  cond.foldl
    (fun acc kv =>
      let pre := if acc.1 == "" then acc.1 else acc.1 ++ " AND "
      (pre ++ "\x60" ++ kv.1 ++ "\x60 = ?", acc.2 ++ [kv.2]))
    (("") , ([] : List Value))

/-- Go `idVal, ok := cond["id"]`: the condition's `id` entry, when present. -/
def lookupId (cond : Row) : Option Value :=
  match cond.find? (fun kv => kv.1 == ("id")) with
  | some kv => some kv.2
  | none => none

/-- Effective page number of `GetTableData`: the parsed `page` query value
(default string `1`), replaced by 1 when not positive. -/
def effPageOf (pageQ : Option String) : Int :=
  if (goAtoi (defaultQuery pageQ ("1"))).1 ≤ 0 then 1
  else (goAtoi (defaultQuery pageQ ("1"))).1

/-- Effective page size of `GetTableData`: the parsed `page_size` query value
(default string `10`), replaced by 10 when not positive. -/
def effPageSizeOf (pageSizeQ : Option String) : Int :=
  if (goAtoi (defaultQuery pageSizeQ ("10"))).1 ≤ 0 then 10
  else (goAtoi (defaultQuery pageSizeQ ("10"))).1

/-- The offset `GetTableData` passes to the backend: `(page-1)*pageSize` over
the effective page and page size. -/
def offsetOf (pageQ pageSizeQ : Option String) : Int :=
  (effPageOf pageQ - 1) * effPageSizeOf pageSizeQ

/-- Model of `GetTableData` (GET /api/database/tables/:name): validate the table name,
parse and default the pagination query, count, select the page, normalize
timestamps.  Returns the response and the trace of backend statements. -/
def getTableData (be : Backend) (table : String) (pageQ pageSizeQ : Option String) :
    ApiResp × List DbCall :=
  if table == "" then (errResp 400 ("Table name is required"), [])
  else
    match be.countRes table with
    | Except.error e => (errResp 500 ("Failed to count records: " ++ e), [DbCall.count table])
    | Except.ok total =>
      match be.selectRes table (offsetOf pageQ pageSizeQ) (effPageSizeOf pageSizeQ) with
      | Except.error e =>
        (errResp 500 ("Failed to get table data: " ++ e),
         [DbCall.count table, DbCall.select table (offsetOf pageQ pageSizeQ) (effPageSizeOf pageSizeQ)])
      | Except.ok rs =>
        ({ status := 200, success := true, message := "Success",
           data := some (rs.map normalizeRow), total := some total,
           rows := none, results := none },
         [DbCall.count table, DbCall.select table (offsetOf pageQ pageSizeQ) (effPageSizeOf pageSizeQ)])

/-- Model of `UpdateTableData` (PUT /api/database/tables/:name): reject a missing table
name or an empty condition or update map before any backend call; otherwise
issue one conditional update. -/
def updateTableData (be : Backend) (table : String) (cond upd : Row) :
    ApiResp × List DbCall :=
  if table == "" then (errResp 400 ("Table name is required"), [])
  else if cond.length == 0 || upd.length == 0 then
    (errResp 400 ("Both condition and update are required"), [])
  else
    let w := buildWhere cond
    let r := be.updateRes table w.1 w.2 upd
    match r.1 with
    | some e =>
      ({ status := 500, success := false, message := "Failed to update record: " ++ e,
         data := none, total := none, rows := some r.2, results := none },
       [DbCall.update table w.1 w.2 upd])
    | none =>
      ({ status := 200, success := true, message := "Record updated successfully",
         data := none, total := none, rows := some r.2, results := none },
       [DbCall.update table w.1 w.2 upd])

/-- Model of `DeleteTableData` (DELETE /api/database/tables/:name): validate only the
table name, then issue one conditional delete built from the whole body map —
the handler performs no emptiness check on the condition. -/
def deleteTableData (be : Backend) (table : String) (cond : Row) :
    ApiResp × List DbCall :=
  if table == "" then (errResp 400 ("Table name is required"), [])
  else
    let w := buildWhere cond
    let r := be.deleteRes table w.1 w.2
    match r.1 with
    | some e =>
      ({ status := 500, success := false, message := "Failed to delete record: " ++ e,
         data := none, total := none, rows := some r.2, results := none },
       [DbCall.delete table w.1 w.2])
    | none =>
      ({ status := 200, success := true, message := "Record deleted successfully",
         data := none, total := none, rows := some r.2, results := none },
       [DbCall.delete table w.1 w.2])

/-- One `(condition, update)` pair of a bulk-update request. -/
structure BulkItem where
  condition : Row
  update : Row
deriving DecidableEq

/-- Loop body of `BulkUpdateTableData` for one item: echo the condition's
`id`, issue the conditional update, report `ok`/`error` from its outcome. -/
def bulkUpdateItemResult (be : Backend) (table : String) (item : BulkItem) : ItemResult :=
  let w := buildWhere item.condition
  match (be.updateRes table w.1 w.2 item.update).1 with
  | some e => { ok := false, error := e, id := lookupId item.condition, condition := none }
  | none => { ok := true, error := "", id := lookupId item.condition, condition := none }

/-- The backend statement `BulkUpdateTableData` issues for one item. -/
def bulkUpdateItemCall (table : String) (item : BulkItem) : DbCall :=
  DbCall.update table (buildWhere item.condition).1 (buildWhere item.condition).2 item.update

/-- Model of `BulkUpdateTableData` (PUT /api/database/tables/:name/bulk-update):
reject a missing table name or an empty item list; otherwise run every item
independently and answer 200 with the per-item results in input order. -/
def bulkUpdateTableData (be : Backend) (table : String) (items : List BulkItem) :
    ApiResp × List DbCall :=
  if table == "" then (errResp 400 ("Table name is required"), [])
  else if items.length == 0 then (errResp 400 ("Items are required for bulk update"), [])
  else
    ({ status := 200, success := true, message := "Bulk update finished",
       data := none, total := none, rows := none,
       results := some (items.map (bulkUpdateItemResult be table)) },
     items.map (bulkUpdateItemCall table))

/-- Loop body of `BulkDeleteTableData` for one condition: echo the `id` when
present, else the whole condition; issue the conditional delete; report
`ok`/`error` from its outcome. -/
def bulkDeleteItemResult (be : Backend) (table : String) (cond : Row) : ItemResult :=
  let w := buildWhere cond
  let idv := lookupId cond
  let condEcho : Option Row := match idv with
    | some _ => none
    | none => some cond
  match (be.deleteRes table w.1 w.2).1 with
  | some e => { ok := false, error := e, id := idv, condition := condEcho }
  | none => { ok := true, error := "", id := idv, condition := condEcho }

/-- The backend statement `BulkDeleteTableData` issues for one condition. -/
def bulkDeleteItemCall (table : String) (cond : Row) : DbCall :=
  DbCall.delete table (buildWhere cond).1 (buildWhere cond).2

/-- Model of `BulkDeleteTableData` (DELETE /api/database/tables/:name/bulk-delete):
reject a missing table name or an empty condition list; otherwise run every
condition independently and answer 200 with the per-item results in order. -/
def bulkDeleteTableData (be : Backend) (table : String) (conds : List Row) :
    ApiResp × List DbCall :=
  if table == "" then (errResp 400 ("Table name is required"), [])
  else if conds.length == 0 then (errResp 400 ("Conditions are required for bulk delete"), [])
  else
    ({ status := 200, success := true, message := "Bulk delete finished",
       data := none, total := none, rows := none,
       results := some (conds.map (bulkDeleteItemResult be table)) },
     conds.map (bulkDeleteItemCall table))

/-! ### Witness fixtures -/

/-- A column record flagged as primary key, named `uid`. -/
def colPk : ColumnMeta :=
  { name := JsValue.jstr ("uid"), type := JsValue.jstr ("int"), pk := true,
    nullable := false, default := JsValue.jnull, extra := JsValue.undef }

/-- A column record not flagged as primary key, named `id`. -/
def colId : ColumnMeta :=
  { name := JsValue.jstr ("id"), type := JsValue.jstr ("int"), pk := false,
    nullable := false, default := JsValue.jnull, extra := JsValue.undef }

/-! ### Claims about the frontend normalizer -/

/-- Claim C6: a raw column description carrying no lowercase `name` field is
normalized through the MySQL `DESCRIBE` mapping: `name` from `Field`, `type`
from `Type`, `pk` true iff `Key` is `PRI`, `nullable` true iff `Null` is
`YES`, `default` from `Default`, `extra` from `Extra`; in particular the row
`{Field:"id",Key:"PRI",Null:"NO"}` yields `{name:"id",pk:true,nullable:false}`. -/
theorem mysql_shape_normalization (c : RawCol) (h : jsGet c ("name") = JsValue.undef) :
    normalizeColumn c =
      { name := jsGet c ("Field"), type := jsGet c ("Type"),
        pk := strictEqS (jsGet c ("Key")) ("PRI"),
        nullable := strictEqS (jsGet c ("Null")) ("YES"),
        default := jsGet c ("Default"), extra := jsGet c ("Extra") } ∧
    normalizeColumn mysqlIdRow =
      { name := JsValue.jstr ("id"), type := JsValue.jstr ("int"), pk := true,
        nullable := false, default := JsValue.jnull, extra := JsValue.jstr ("") } := by
  constructor
  · unfold normalizeColumn
    rw [h]
    rfl
  · decide

/-- Witness for C6 at the concrete MySQL `DESCRIBE` row for column `id`. -/
theorem mysql_shape_normalization_witness :
    normalizeColumn mysqlIdRow =
      { name := JsValue.jstr ("id"), type := JsValue.jstr ("int"), pk := true,
        nullable := false, default := JsValue.jnull, extra := JsValue.jstr ("") } :=
  (mysql_shape_normalization mysqlIdRow (by decide)).2

/-- Claim C2 (evaluation at the failing input): a PostgreSQL-shaped raw
column description carries no `name` key, so the normalizer falls into the
MySQL branch and returns an all-`undefined` record with `nullable` false —
not the `column_name`/`data_type`/`is_nullable`/`column_default` mapping the
specification describes. -/
theorem pg_shape_normalization_bug :
    normalizeColumn pgIdRow =
      { name := JsValue.undef, type := JsValue.undef, pk := false,
        nullable := false, default := JsValue.undef, extra := JsValue.undef } ∧
    (normalizeColumn pgIdRow).name ≠ JsValue.jstr ("id") ∧
    (normalizeColumn pgIdRow).nullable = false ∧
    jsGet pgIdRow ("is_nullable") = JsValue.jstr ("YES") := by
  decide

/-- Claim C8: the UI primary-key determination returns the name of the first
column flagged `pk`; otherwise, when some column is literally named `id`, it
returns `id`; otherwise it returns none. -/
theorem primary_key_choice (cols : List ColumnMeta) :
    (∀ pre c post, cols = pre ++ c :: post → (∀ d ∈ pre, d.pk = false) → c.pk = true →
      getPrimaryKeyName cols = some c.name) ∧
    ((∀ c ∈ cols, c.pk = false) →
      ((∃ c ∈ cols, c.name = JsValue.jstr ("id")) →
        getPrimaryKeyName cols = some (JsValue.jstr ("id"))) ∧
      ((∀ c ∈ cols, c.name ≠ JsValue.jstr ("id")) → getPrimaryKeyName cols = none)) := by
  constructor
  · intro pre c post hcols hpre hc
    have hfind : cols.find? (fun col => col.pk) = some c := by
      subst hcols
      induction pre with
      | nil => simp [List.find?_cons, hc]
      | cons d ds ih =>
        have hd : d.pk = false := hpre d (by simp)
        rw [List.cons_append, List.find?_cons, hd]
        exact ih (fun x hx => hpre x (List.mem_cons_of_mem d hx))
    have hne : ¬ cols.length = 0 := by subst hcols; simp
    unfold getPrimaryKeyName
    rw [if_neg hne, hfind]
  · intro hall
    have hfind : cols.find? (fun col => col.pk) = none := by
      rw [List.find?_eq_none]
      intro x hx
      simp [hall x hx]
    constructor
    · rintro ⟨c, hcmem, hcname⟩
      have hsome : (cols.find? (fun col => strictEqS col.name ("id"))).isSome := by
        rw [List.find?_isSome]
        refine ⟨c, hcmem, ?_⟩
        rw [hcname]
        decide
      obtain ⟨c2, hc2⟩ := Option.isSome_iff_exists.mp hsome
      have hp := List.find?_some hc2
      have hname : c2.name = JsValue.jstr ("id") := by
        cases hn : c2.name <;> rw [hn] at hp <;> simp [strictEqS] at hp
        rw [hp]
      have hne : ¬ cols.length = 0 := by
        intro h0
        rw [List.length_eq_zero] at h0
        subst h0
        cases hcmem
      unfold getPrimaryKeyName
      rw [if_neg hne, hfind, hc2]
      simp [hname]
    · intro hnone
      have hfind2 : cols.find? (fun col => strictEqS col.name ("id")) = none := by
        rw [List.find?_eq_none]
        intro x hx
        cases hn : x.name <;> simp [strictEqS]
        intro heq
        exact (hnone x hx) (by rw [hn, heq])
      unfold getPrimaryKeyName
      by_cases h0 : cols.length = 0
      · rw [if_pos h0]
      · rw [if_neg h0, hfind, hfind2]

/-- Witness for C8: at a list whose head is flagged `pk`, the choice is that
column's name; the hypotheses are discharged at the concrete list. -/
theorem primary_key_choice_witness : getPrimaryKeyName [colPk, colId] = some (JsValue.jstr ("uid")) :=
  (primary_key_choice [colPk, colId]).1 [] colPk [colId] rfl (by intro d hd; cases hd) rfl

/-! ### Backend fixtures for witnesses -/

/-- A backend all of whose statements succeed; select returns no rows. -/
def beP : Backend :=
  { countRes := fun _ => Except.ok 42
    selectRes := fun _ _ _ => Except.ok []
    updateRes := fun _ _ _ _ => (none, 1)
    deleteRes := fun _ _ _ => (none, 1) }

/-- A row holding one `time.Time` value: Unix second 3600 at UTC-5. -/
def rowT : Row := [(("ts"), Value.vTime { unixSec := 3600, offsetSec := -18000 })]

/-- A backend whose select returns the one timestamped row `rowT`. -/
def beT : Backend :=
  { countRes := fun _ => Except.ok 1
    selectRes := fun _ _ _ => Except.ok [rowT]
    updateRes := fun _ _ _ _ => (none, 0)
    deleteRes := fun _ _ _ => (none, 0) }

/-! ### Claims about the paginated read -/

/-- Claim C5: the paginated read substitutes page 1 when the parsed page is
not positive and page size 10 when the parsed page size is not positive, each
independently and also when the query parameter is absent; it computes
`total` by a full unfiltered count of the table and fetches the row slice at
offset `(page-1)*pageSize` limited to `pageSize` rows. -/
theorem paginated_read_contract (be : Backend) (table : String) (sp sps : Option String)
    (total : Int) (rows : List Row)
    (htable : ¬ table = "")
    (hcount : be.countRes table = Except.ok total)
    (hsel : be.selectRes table (offsetOf sp sps) (effPageSizeOf sps) = Except.ok rows) :
    (getTableData be table sp sps).2 =
      [DbCall.count table, DbCall.select table (offsetOf sp sps) (effPageSizeOf sps)] ∧
    (getTableData be table sp sps).1.total = some total ∧
    (getTableData be table sp sps).1.data = some (rows.map normalizeRow) ∧
    (getTableData be table sp sps).1.status = 200 ∧
    (getTableData be table sp sps).1.success = true ∧
    ((goAtoi (defaultQuery sp ("1"))).1 ≤ 0 → effPageOf sp = 1) ∧
    (0 < (goAtoi (defaultQuery sp ("1"))).1 → effPageOf sp = (goAtoi (defaultQuery sp ("1"))).1) ∧
    ((goAtoi (defaultQuery sps ("10"))).1 ≤ 0 → effPageSizeOf sps = 10) ∧
    (0 < (goAtoi (defaultQuery sps ("10"))).1 → effPageSizeOf sps = (goAtoi (defaultQuery sps ("10"))).1) ∧
    (sp = none → effPageOf sp = 1) ∧
    (sps = none → effPageSizeOf sps = 10) ∧
    offsetOf sp sps = (effPageOf sp - 1) * effPageSizeOf sps := by
  have hbeq : (table == "") = false := by simp [htable]
  have hg : getTableData be table sp sps =
      ({ status := 200, success := true, message := "Success",
         data := some (rows.map normalizeRow), total := some total,
         rows := none, results := none },
       [DbCall.count table, DbCall.select table (offsetOf sp sps) (effPageSizeOf sps)]) := by
    simp only [getTableData, hbeq, Bool.false_eq_true, if_false, hcount, hsel]
  rw [hg]
  refine ⟨rfl, rfl, rfl, rfl, rfl, ?_, ?_, ?_, ?_, ?_, ?_, rfl⟩
  · intro h
    unfold effPageOf
    rw [if_pos h]
  · intro h
    unfold effPageOf
    rw [if_neg (by omega)]
  · intro h
    unfold effPageSizeOf
    rw [if_pos h]
  · intro h
    unfold effPageSizeOf
    rw [if_neg (by omega)]
  · rintro rfl
    decide
  · rintro rfl
    decide

/-- Witness for C5 at a concrete backend with page `0` and page size `-5`:
both are substituted, the count result is surfaced as `total`, and the select
is issued at offset 0 with limit 10. -/
theorem paginated_read_contract_witness :
    (getTableData beP ("users") (some ("0")) (some ("-5"))).2 =
      [DbCall.count ("users"), DbCall.select ("users") 0 10] ∧
    (getTableData beP ("users") (some ("0")) (some ("-5"))).1.total = some 42 ∧
    effPageOf (some ("0")) = 1 ∧ effPageSizeOf (some ("-5")) = 10 := by
  obtain ⟨h1, h2, h3, h4, h5, h6, h7, h8, h9, h10, h11, h12⟩ :=
    paginated_read_contract beP ("users") (some ("0")) (some ("-5")) 42 [] (by decide) rfl rfl
  exact ⟨h1.trans (by decide), h2, h6 (by decide), h8 (by decide)⟩

/-- Claim C7: every `time.Time` (and non-nil `*time.Time`) cell of a row
returned by the paginated read is converted to UTC (same instant, offset 0)
and rendered in the RFC 3339 layout; a nil `*time.Time` is returned as null,
not as an empty string; every non-temporal cell is returned unchanged. -/
theorem timestamp_normalization (be : Backend) (table : String) (sp sps : Option String)
    (total : Int) (rows : List Row)
    (htable : ¬ table = "")
    (hcount : be.countRes table = Except.ok total)
    (hsel : be.selectRes table (offsetOf sp sps) (effPageSizeOf sps) = Except.ok rows) :
    (getTableData be table sp sps).1.data = some (rows.map normalizeRow) ∧
    (∀ r : Row, normalizeRow r = r.map (fun kv => (kv.1, normalizeValue kv.2))) ∧
    (∀ t, normalizeValue (Value.vTime t) = Value.vStr (formatRFC3339 (goUTC t))) ∧
    (∀ t, normalizeValue (Value.vTimePtr (some t)) = Value.vStr (formatRFC3339 (goUTC t))) ∧
    normalizeValue (Value.vTimePtr none) = Value.vNull ∧
    normalizeValue (Value.vTimePtr none) ≠ Value.vStr ("") ∧
    (∀ v, (∀ t, v ≠ Value.vTime t) → (∀ o, v ≠ Value.vTimePtr o) → normalizeValue v = v) ∧
    (∀ t, (goUTC t).offsetSec = 0 ∧ (goUTC t).unixSec = t.unixSec) := by
  have hbeq : (table == "") = false := by simp [htable]
  refine ⟨?_, fun r => rfl, fun t => rfl, fun t => rfl, rfl, by decide, ?_, fun t => ⟨rfl, rfl⟩⟩
  · simp only [getTableData, hbeq, Bool.false_eq_true, if_false, hcount, hsel]
  · intro v hvt hvp
    cases v with
    | vTime t => exact absurd rfl (hvt t)
    | vTimePtr o => exact absurd rfl (hvp o)
    | vNull => rfl
    | vBool b => rfl
    | vInt n => rfl
    | vStr s => rfl

/-- Witness for C7: the timestamped row of `beT` (Unix second 3600 tagged
with a UTC-5 offset) is returned rendered as UTC `1970-01-01T01:00:00Z`. -/
theorem timestamp_normalization_witness :
    (getTableData beT ("logs") none none).1.data =
      some [[(("ts"), Value.vStr ("1970-01-01T01:00:00Z"))]] := by
  have h := timestamp_normalization beT ("logs") none none 1 [rowT] (by decide) rfl rfl
  rw [h.1]
  decide

/-- Claim C9: a `page` or `page_size` query value that is present but not
syntactically an integer makes the paginated read behave exactly as if the
parameter were absent (page 1, page size 10): the parse error is discarded
and no HTTP 400 results. -/
theorem unparseable_page_params_default (be : Backend) (table : String) (s t : String)
    (q : Option String) (hs : intSyntaxOk s = false) (ht : intSyntaxOk t = false) :
    getTableData be table (some s) q = getTableData be table none q ∧
    getTableData be table q (some t) = getTableData be table q none ∧
    (¬ table = "" → (getTableData be table (some s) (some t)).1.status ≠ 400) := by
  have hs1 : effPageOf (some s) = 1 := by
    unfold effPageOf
    simp [defaultQuery, goAtoi, hs]
  have hs2 : effPageOf none = 1 := by decide
  have ht1 : effPageSizeOf (some t) = 10 := by
    unfold effPageSizeOf
    simp [defaultQuery, goAtoi, ht]
  have ht2 : effPageSizeOf none = 10 := by decide
  have hps : effPageOf (some s) = effPageOf none := hs1.trans hs2.symm
  have hpt : effPageSizeOf (some t) = effPageSizeOf none := ht1.trans ht2.symm
  have hoff1 : ∀ r, offsetOf (some s) r = offsetOf none r := by
    intro r
    unfold offsetOf
    rw [hps]
  have hoff2 : ∀ l, offsetOf l (some t) = offsetOf l none := by
    intro l
    unfold offsetOf
    rw [hpt]
  refine ⟨?_, ?_, ?_⟩
  · simp only [getTableData, hoff1]
  · simp only [getTableData, hoff2, hpt]
  · intro htable
    have hbeq : (table == "") = false := by simp [htable]
    rcases hc : be.countRes table with e | tot
    · simp [getTableData, hbeq, hc, errResp]
    · rcases hsx : be.selectRes table (offsetOf (some s) (some t)) (effPageSizeOf (some t)) with e2 | rs
      · simp [getTableData, hbeq, hc, hsx, errResp]
      · simp [getTableData, hbeq, hc, hsx]

/-- Witness for C9 at the non-numeric query values `abc` and `1x`. -/
theorem unparseable_page_params_default_witness :
    getTableData beP ("users") (some ("abc")) none = getTableData beP ("users") none none ∧
    (getTableData beP ("users") (some ("abc")) (some ("1x"))).1.status ≠ 400 := by
  have h := unparseable_page_params_default beP ("users") ("abc") ("1x") none (by decide) (by decide)
  exact ⟨h.1, h.2.2 (by decide)⟩

/-! ### Claims about the single-row mutations -/

/-- Claim C3: the single-row update rejects an empty condition map or an
empty update map with HTTP 400 and success false before any backend call, and
attempts the backend update exactly when both maps are non-empty. -/
theorem update_requires_nonempty_maps (be : Backend) (table : String) (cond upd : Row)
    (htable : ¬ table = "") :
    ((cond = [] ∨ upd = []) →
      (updateTableData be table cond upd).1.status = 400 ∧
      (updateTableData be table cond upd).1.success = false ∧
      (updateTableData be table cond upd).2 = []) ∧
    (cond ≠ [] → upd ≠ [] →
      (updateTableData be table cond upd).2 =
        [DbCall.update table (buildWhere cond).1 (buildWhere cond).2 upd]) := by
  have hbeq : (table == "") = false := by simp [htable]
  constructor
  · intro hor
    have hlen : (cond.length == 0 || upd.length == 0) = true := by
      rcases hor with h | h <;> subst h <;> simp
    simp [updateTableData, hbeq, hlen, errResp]
  · intro hc hu
    have hlen : (cond.length == 0 || upd.length == 0) = false := by
      simp [List.length_eq_zero, hc, hu]
    rcases hr : (be.updateRes table (buildWhere cond).1 (buildWhere cond).2 upd).1 with _ | e <;>
      simp [updateTableData, hbeq, hlen, hr]

/-- Witness for C3: an empty condition with a non-empty update is rejected
with 400 and no backend statement is issued. -/
theorem update_requires_nonempty_maps_witness :
    (updateTableData beP ("users") [] [(("x"), Value.vInt 1)]).1.status = 400 ∧
    (updateTableData beP ("users") [] [(("x"), Value.vInt 1)]).2 = [] := by
  obtain ⟨h1, h2, h3⟩ :=
    (update_requires_nonempty_maps beP ("users") [] [(("x"), Value.vInt 1)] (by decide)).1
      (Or.inl rfl)
  exact ⟨h1, h3⟩

/-- Claim C1 fails on the code: with table `users`, an all-succeeding backend
and an empty condition map, the single-row delete answers 200 with success
true and issues one backend delete with an empty WHERE clause — not an
InvalidArgument 400 with success false and no backend call. -/
theorem delete_empty_condition_claim_counterexample :
    (deleteTableData beP ("users") []).1.status = 200 ∧
    (deleteTableData beP ("users") []).1.success = true ∧
    (deleteTableData beP ("users") []).2 = [DbCall.delete ("users") ("") []] := by
  decide

/-- Claim C1 (amended): the single-row delete performs no emptiness check on
the condition map: for every non-empty table name and empty condition it is
never rejected with 400, it issues exactly one backend delete with an empty
WHERE clause and no arguments, and the response is 200 with success true on
backend success and 500 with success false on backend failure. -/
theorem delete_empty_condition_not_rejected (be : Backend) (table : String)
    (htable : ¬ table = "") :
    (deleteTableData be table []).2 = [DbCall.delete table ("") []] ∧
    (deleteTableData be table []).1.status ≠ 400 ∧
    ((be.deleteRes table ("") []).1 = none →
      (deleteTableData be table []).1.status = 200 ∧
      (deleteTableData be table []).1.success = true ∧
      (deleteTableData be table []).1.rows = some (be.deleteRes table ("") []).2) ∧
    (∀ e, (be.deleteRes table ("") []).1 = some e →
      (deleteTableData be table []).1.status = 500 ∧
      (deleteTableData be table []).1.success = false) := by
  have hbeq : (table == "") = false := by simp [htable]
  rcases hr : (be.deleteRes table ("") []).1 with _ | e <;>
    simp [deleteTableData, buildWhere, hbeq, hr]

/-- Witness for C1 at table `users` and the all-succeeding backend. -/
theorem delete_empty_condition_not_rejected_witness :
    (deleteTableData beP ("users") []).2 = [DbCall.delete ("users") ("") []] ∧
    (deleteTableData beP ("users") []).1.rows = some 1 := by
  have h := delete_empty_condition_not_rejected beP ("users") (by decide)
  exact ⟨h.1, (h.2.2.1 rfl).2.2⟩

/-! ### Claims about the bulk mutations -/

/-- Claim C4: for a non-empty bulk-update item list (and likewise a non-empty
bulk-delete condition list) the handler answers 200 with success true
regardless of per-item failures, returns exactly one result per item in input
order, each result determined by its own backend operation alone — ok false
with a non-empty error exactly when that operation failed, ok true with empty
error otherwise, echoing the condition's id when present — and issues one
backend statement per item, so one failure prevents no sibling item. -/
theorem bulk_ops_per_item_results (be : Backend) (table : String)
    (items : List BulkItem) (conds : List Row)
    (htable : ¬ table = "") (hitems : items ≠ []) (hconds : conds ≠ [])
    (hup : ∀ t w a u e, (be.updateRes t w a u).1 = some e → e ≠ "")
    (hdel : ∀ t w a e, (be.deleteRes t w a).1 = some e → e ≠ "") :
    (bulkUpdateTableData be table items).1.status = 200 ∧
    (bulkUpdateTableData be table items).1.success = true ∧
    (bulkUpdateTableData be table items).1.results =
      some (items.map (bulkUpdateItemResult be table)) ∧
    (items.map (bulkUpdateItemResult be table)).length = items.length ∧
    (bulkUpdateTableData be table items).2.length = items.length ∧
    (∀ item : BulkItem,
      ((bulkUpdateItemResult be table item).ok = false ↔
        (be.updateRes table (buildWhere item.condition).1 (buildWhere item.condition).2 item.update).1 ≠ none) ∧
      ((bulkUpdateItemResult be table item).ok = false →
        (bulkUpdateItemResult be table item).error ≠ "") ∧
      ((bulkUpdateItemResult be table item).ok = true →
        (bulkUpdateItemResult be table item).error = "") ∧
      (∀ v, lookupId item.condition = some v → (bulkUpdateItemResult be table item).id = some v)) ∧
    (bulkDeleteTableData be table conds).1.status = 200 ∧
    (bulkDeleteTableData be table conds).1.success = true ∧
    (bulkDeleteTableData be table conds).1.results =
      some (conds.map (bulkDeleteItemResult be table)) ∧
    (bulkDeleteTableData be table conds).2.length = conds.length ∧
    (∀ cond : Row,
      ((bulkDeleteItemResult be table cond).ok = false ↔
        (be.deleteRes table (buildWhere cond).1 (buildWhere cond).2).1 ≠ none) ∧
      ((bulkDeleteItemResult be table cond).ok = false →
        (bulkDeleteItemResult be table cond).error ≠ "") ∧
      ((bulkDeleteItemResult be table cond).ok = true →
        (bulkDeleteItemResult be table cond).error = "") ∧
      (∀ v, lookupId cond = some v → (bulkDeleteItemResult be table cond).id = some v)) := by
  have hbeq : (table == "") = false := by simp [htable]
  have hil : (items.length == 0) = false := by simp [List.length_eq_zero, hitems]
  have hcl : (conds.length == 0) = false := by simp [List.length_eq_zero, hconds]
  refine ⟨by simp [bulkUpdateTableData, hbeq, hil], by simp [bulkUpdateTableData, hbeq, hil],
    by simp [bulkUpdateTableData, hbeq, hil], by simp,
    by simp [bulkUpdateTableData, hbeq, hil], ?_,
    by simp [bulkDeleteTableData, hbeq, hcl], by simp [bulkDeleteTableData, hbeq, hcl],
    by simp [bulkDeleteTableData, hbeq, hcl], by simp [bulkDeleteTableData, hbeq, hcl], ?_⟩
  · intro item
    rcases hr : (be.updateRes table (buildWhere item.condition).1 (buildWhere item.condition).2 item.update).1 with _ | e
    · simp [bulkUpdateItemResult, hr]
    · refine ⟨by simp [bulkUpdateItemResult, hr], ?_, by simp [bulkUpdateItemResult, hr], ?_⟩
      · intro hok
        simpa [bulkUpdateItemResult, hr] using hup _ _ _ _ _ hr
      · intro v hv
        simp [bulkUpdateItemResult, hr, hv]
  · intro cond
    rcases hr : (be.deleteRes table (buildWhere cond).1 (buildWhere cond).2).1 with _ | e
    · simp [bulkDeleteItemResult, hr]
    · refine ⟨by simp [bulkDeleteItemResult, hr], ?_, by simp [bulkDeleteItemResult, hr], ?_⟩
      · intro hok
        simpa [bulkDeleteItemResult, hr] using hdel _ _ _ _ hr
      · intro v hv
        simp [bulkDeleteItemResult, hr, hv]

/-- A one-item bulk-update request whose condition carries an `id`. -/
def itemsW : List BulkItem :=
  [{ condition := [(("id"), Value.vInt 1)], update := [(("name"), Value.vStr ("b"))] }]

/-- A one-condition bulk-delete request whose condition carries an `id`. -/
def condsW : List Row := [[(("id"), Value.vInt 2)]]

/-- Witness for C4 at concrete one-item batches and the all-succeeding
backend. -/
theorem bulk_ops_per_item_results_witness :
    (bulkUpdateTableData beP ("users") itemsW).1.status = 200 ∧
    (bulkUpdateTableData beP ("users") itemsW).1.results =
      some (itemsW.map (bulkUpdateItemResult beP ("users"))) ∧
    (bulkDeleteTableData beP ("users") condsW).2.length = condsW.length := by
  obtain ⟨h1, h2, h3, h4, h5, h6, h7, h8, h9, h10, h11⟩ :=
    bulk_ops_per_item_results beP ("users") itemsW condsW (by decide) (by decide) (by decide)
      (fun t w a u e h => nomatch h) (fun t w a e h => nomatch h)
  exact ⟨h1, h3, h10⟩

/-- Claim C10: a bulk item with an empty condition map is not rejected at the
boundary: the batch is accepted whenever the item list itself is non-empty,
the empty-condition item is still executed against the backend with an empty
WHERE clause, and it is reported at its position in the per-item results —
unlike the single-row update, which rejects an empty condition with 400
before any backend call. -/
theorem bulk_empty_condition_executed (be : Backend) (table : String)
    (pre post : List BulkItem) (u : Row) (cpre cpost : List Row)
    (htable : ¬ table = "") :
    (bulkUpdateTableData be table (pre ++ { condition := [], update := u } :: post)).1.status = 200 ∧
    (bulkUpdateTableData be table (pre ++ { condition := [], update := u } :: post)).1.success = true ∧
    (bulkUpdateTableData be table (pre ++ { condition := [], update := u } :: post)).2 =
      pre.map (bulkUpdateItemCall table) ++
        DbCall.update table ("") [] u :: post.map (bulkUpdateItemCall table) ∧
    (bulkUpdateTableData be table (pre ++ { condition := [], update := u } :: post)).1.results =
      some (pre.map (bulkUpdateItemResult be table) ++
        bulkUpdateItemResult be table { condition := [], update := u } ::
          post.map (bulkUpdateItemResult be table)) ∧
    (updateTableData be table [] u).1.status = 400 ∧
    (updateTableData be table [] u).2 = [] ∧
    (bulkDeleteTableData be table (cpre ++ ([] : Row) :: cpost)).1.status = 200 ∧
    (bulkDeleteTableData be table (cpre ++ ([] : Row) :: cpost)).2 =
      cpre.map (bulkDeleteItemCall table) ++
        DbCall.delete table ("") [] :: cpost.map (bulkDeleteItemCall table) ∧
    (bulkDeleteTableData be table (cpre ++ ([] : Row) :: cpost)).1.results =
      some (cpre.map (bulkDeleteItemResult be table) ++
        bulkDeleteItemResult be table ([] : Row) :: cpost.map (bulkDeleteItemResult be table)) := by
  have hbeq : (table == "") = false := by simp [htable]
  have hil : ((pre ++ { condition := [], update := u } :: post : List BulkItem).length == 0) = false := by
    simp
  have hcl : ((cpre ++ ([] : Row) :: cpost).length == 0) = false := by simp
  refine ⟨by simp [bulkUpdateTableData, hbeq, hil], by simp [bulkUpdateTableData, hbeq, hil],
    ?_, by simp [bulkUpdateTableData, hbeq, hil], ?_, ?_,
    by simp [bulkDeleteTableData, hbeq, hcl], ?_, by simp [bulkDeleteTableData, hbeq, hcl]⟩
  · simp [bulkUpdateTableData, hbeq, hil, bulkUpdateItemCall, buildWhere]
  · simp [updateTableData, hbeq, errResp]
  · simp [updateTableData, hbeq, errResp]
  · simp [bulkDeleteTableData, hbeq, hcl, bulkDeleteItemCall, buildWhere]

/-- Witness for C10 at a one-item batch whose sole condition is empty. -/
theorem bulk_empty_condition_executed_witness :
    (bulkUpdateTableData beP ("users") [{ condition := [], update := [(("x"), Value.vInt 1)] }]).1.status = 200 ∧
    (bulkUpdateTableData beP ("users") [{ condition := [], update := [(("x"), Value.vInt 1)] }]).2 =
      [DbCall.update ("users") ("") [] [(("x"), Value.vInt 1)]] ∧
    (updateTableData beP ("users") [] [(("x"), Value.vInt 1)]).2 = [] := by
  obtain ⟨h1, h2, h3, h4, h5, h6, h7, h8, h9⟩ :=
    bulk_empty_condition_executed beP ("users") [] [] [(("x"), Value.vInt 1)] [] [] (by decide)
  exact ⟨h1, h3.trans (by decide), h6⟩

end DbAdmin
